import Mathlib

/-!
Verification development for the blood-glucose forecasting core of the
T1D-Carb repository (src/components/analysis-result.tsx; the same engine
appears in src/unnamed/part_007).

Modelling conventions:
* JavaScript numbers are modelled by `JSVal`: either an exact real number
  (`JSVal.num`), `NaN`, `+Infinity` or `-Infinity`.  Finite arithmetic is
  modelled exactly over `ℝ` (no rounding error); the IEEE special-value
  propagation rules for the operations the code uses are modelled in
  the `JSVal` operations below.
* `parseFloat` of a non-numeric string yields `NaN`, i.e. `JSVal.nan`;
  the claims under study quantify over numeric inputs, so the string
  parsing step itself is not modelled.
* JavaScript `x / y` on finite numbers agrees with real division except
  at `y = 0` (JS gives `±Infinity`/`NaN`, Lean gives `0`).  The theorems
  that depend on a quotient's value all carry a positivity hypothesis on
  the divisor, under which the two semantics agree; the only statements
  made at a zero divisor are purely structural (whether a result object
  is produced at all), which does not depend on the quotient's value.
-/

/-- A JavaScript number: a finite real, NaN, or a signed infinity. -/
inductive JSVal where
  | num (x : ℝ)
  | nan
  | inf
  | ninf

namespace JSVal

/-- JavaScript `isNaN` on a number value. -/
def isNaN : JSVal → Bool
  | nan => true
  | _ => false

/-- IEEE addition (exact on finite values). `Infinity + -Infinity = NaN`. -/
noncomputable def add : JSVal → JSVal → JSVal
  | num a, num b => num (a + b)
  | nan, _ => nan
  | _, nan => nan
  | inf, ninf => nan
  | ninf, inf => nan
  | inf, _ => inf
  | _, inf => inf
  | ninf, _ => ninf
  | _, ninf => ninf

/-- IEEE negation. -/
noncomputable def neg : JSVal → JSVal
  | num a => num (-a)
  | nan => nan
  | inf => ninf
  | ninf => inf

/-- IEEE subtraction, as addition of the negation. -/
noncomputable def sub (a b : JSVal) : JSVal := add a (neg b)

/-- IEEE multiplication (exact on finite values). `Infinity * 0 = NaN`. -/
noncomputable def mul : JSVal → JSVal → JSVal
  | num a, num b => num (a * b)
  | nan, _ => nan
  | _, nan => nan
  | inf, num b => if 0 < b then inf else if b < 0 then ninf else nan
  | num a, inf => if 0 < a then inf else if a < 0 then ninf else nan
  | ninf, num b => if 0 < b then ninf else if b < 0 then inf else nan
  | num a, ninf => if 0 < a then ninf else if a < 0 then inf else nan
  | inf, inf => inf
  | inf, ninf => ninf
  | ninf, inf => ninf
  | ninf, ninf => inf

/-- JavaScript `Math.max`: NaN-absorbing, otherwise the larger value. -/
noncomputable def jmax : JSVal → JSVal → JSVal
  | nan, _ => nan
  | _, nan => nan
  | inf, _ => inf
  | _, inf => inf
  | ninf, b => b
  | a, ninf => a
  | num a, num b => num (Max.max a b)

/-- JavaScript `Math.round`: round half toward positive infinity
(`Math.round x = Math.floor (x + 0.5)`), which is Mathlib's `round`. -/
noncomputable def jround : JSVal → JSVal
  | num a => num ((round a : ℤ) : ℝ)
  | nan => nan
  | inf => inf
  | ninf => ninf

/-- JavaScript `x > b` for a finite literal `b`: false when `x` is NaN. -/
noncomputable def gtR : JSVal → ℝ → Bool
  | num a, b => decide (b < a)
  | nan, _ => false
  | inf, _ => true
  | ninf, _ => false

/-- JavaScript `x < b` for a finite literal `b`: false when `x` is NaN. -/
noncomputable def ltR : JSVal → ℝ → Bool
  | num a, b => decide (a < b)
  | nan, _ => false
  | inf, _ => false
  | ninf, _ => true

/-- JavaScript `x >= b` for a finite literal `b`: false when `x` is NaN. -/
noncomputable def geR : JSVal → ℝ → Bool
  | num a, b => decide (b ≤ a)
  | nan, _ => false
  | inf, _ => true
  | ninf, _ => false

/-- JavaScript `x <= b` for a finite literal `b`: false when `x` is NaN. -/
noncomputable def leR : JSVal → ℝ → Bool
  | num a, b => decide (a ≤ b)
  | nan, _ => false
  | inf, _ => false
  | ninf, _ => true

end JSVal

/-! ## Unit conversion and dosing calculator
(`AnalysisResult` component body, src/components/analysis-result.tsx) -/

/-- The BG display unit, the TS union `"mg/dL" | "mmol/L"`. -/
inductive BGUnit where
  | mgdl
  | mmol
deriving DecidableEq

/-- `mgdLToMmolL (mgdL) = mgdL / 18.0182`. -/
noncomputable def mgdLToMmolL (mgdL : ℝ) : ℝ := mgdL / 18.0182

/-- `mmolLToMgdL (mmolL) = mmolL * 18.0182`. -/
noncomputable def mmolLToMgdL (mmolL : ℝ) : ℝ := mmolL * 18.0182

/-- The JS fallback `Number(carbRatio) || 1`: `0` is falsy and becomes `1`.
(A NaN carbRatio would also become `1`; the claims quantify over numeric
carbRatio only, so that case is outside every statement below.) -/
noncomputable def ratioOrOne (carbRatio : ℝ) : ℝ := if carbRatio = 0 then 1 else carbRatio

/-- `const baseInsulinDose = carbs / ratio` with `ratio = Number(carbRatio) || 1`.
(`const carbs = Number(analysis.carbs) || 0` is the identity on numeric
values: `0 || 0 = 0`.) -/
noncomputable def baseInsulinDose (carbs carbRatio : ℝ) : ℝ :=
  carbs / ratioOrOne carbRatio

/-- `bgUnit === "mg/dL" ? mgdLToMmolL(currentBGNum) : currentBGNum`. -/
noncomputable def bgInMmolL (bgUnit : BGUnit) (currentBGNum : ℝ) : ℝ :=
  match bgUnit with
  | BGUnit.mgdl => mgdLToMmolL currentBGNum
  | BGUnit.mmol => currentBGNum

/-- `if (bgInMmolL > 7) correctionDose = (bgInMmolL - 7) / correctionFactor`
(initialised to 0).  The enclosing `if (!isNaN(currentBGNum))` is always
taken for a numeric input because `parseFloat(currentBG) || 0` coerces NaN
to 0, so it is not modelled as a separate branch. -/
noncomputable def correctionDose (bgUnit : BGUnit) (currentBGNum correctionFactor : ℝ) : ℝ :=
  if 7 < bgInMmolL bgUnit currentBGNum then
    (bgInMmolL bgUnit currentBGNum - 7) / correctionFactor
  else 0

/-- `totalInsulinDose = baseInsulinDose + correctionDose;
if (currentBGNum < 80) totalInsulinDose = Math.max(0, totalInsulinDose - 1)`.
Note the threshold test uses the raw `currentBGNum` in whatever unit is
active; no unit conversion is applied to it. -/
noncomputable def totalInsulinDose
    (carbs carbRatio : ℝ) (bgUnit : BGUnit) (currentBGNum correctionFactor : ℝ) : ℝ :=
  if currentBGNum < 80 then
    Max.max 0 (baseInsulinDose carbs carbRatio
      + correctionDose bgUnit currentBGNum correctionFactor - 1)
  else
    baseInsulinDose carbs carbRatio + correctionDose bgUnit currentBGNum correctionFactor

/-! ## ICR/ISF and the response kernels -/

/-- Result record of `calculateICRandISF`. -/
structure ICRISF where
  ICR : ℝ
  ISF : ℝ

/-- `calculateICRandISF(tdd)`: the 500/1500 rules, `ICR = 500/tdd`,
`ISF = 1500/tdd`. -/
noncomputable def calculateICRandISF (tdd : ℝ) : ICRISF :=
  { ICR := 500 / tdd, ISF := 1500 / tdd }

/-- `gammaKernel(t, tauC)`: 0 for `t <= 0`, else `(t/tauC^2) * exp(-t/tauC)`. -/
noncomputable def gammaKernel (t tauC : ℝ) : ℝ :=
  if t ≤ 0 then 0 else (t / (tauC * tauC)) * Real.exp (-t / tauC)

/-- `insulinKernel(t, tau1, tau2)`: 0 for `t <= 0`, else
`exp(-t/tau2) - exp(-t/tau1)`. -/
noncomputable def insulinKernel (t tau1 tau2 : ℝ) : ℝ :=
  if t ≤ 0 then 0 else Real.exp (-t / tau2) - Real.exp (-t / tau1)

/-- `normalizeInsulinKernel(t, tau1, tau2) = insulinKernel(t,tau1,tau2) / (tau2 - tau1)`. -/
noncomputable def normalizeInsulinKernel (t tau1 tau2 : ℝ) : ℝ :=
  insulinKernel t tau1 tau2 / (tau2 - tau1)

/-! ## BG prediction model (`calculateBGPredictions`)

Model constants from the source: `deltaT = 1`, `horizon = 180`,
`tauC = 60`, `tau1 = 20`, `tau2 = 160`, `kBaseline = 0.001`,
`bgTarget = 100`. -/

/-- The `switch (trend)` selecting the initial slope: `"rising" -> 2`,
`"falling" -> -2`, default `0`. -/
def initialSlope (trend : String) : ℝ :=
  if trend = "rising" then 2 else if trend = "falling" then -2 else 0

/-- `carbProfile[i] = carbs * gammaKernel(i * deltaT, tauC) * deltaT`. -/
noncomputable def carbProfile (carbs : ℝ) (i : ℕ) : ℝ :=
  carbs * gammaKernel ((i : ℝ) * 1) 60 * 1

/-- `insulinProfile[i] = insulinDoseValue * normalizeInsulinKernel(i * deltaT, tau1, tau2) * deltaT`. -/
noncomputable def insulinProfile (insulinDoseValue : ℝ) (i : ℕ) : ℝ :=
  insulinDoseValue * normalizeInsulinKernel ((i : ℝ) * 1) 20 160 * 1

/-- The simulation loop of `calculateBGPredictions` over JS number values:
`bgArray[0] = bgNum` and for `1 <= i`,
`bgArray[i] = Math.max(50, bgArray[i-1] + deltaFromCarbs - deltaFromInsulin + drift + trendEffect)`
with `deltaFromCarbs = (ISF/ICR) * carbProfile[i-1]`,
`deltaFromInsulin = ISF * insulinProfile[i-1]`,
`drift = -kBaseline * (bgArray[i-1] - bgTarget) * deltaT` and
`trendEffect = i <= 10 ? initialSlope * deltaT : 0`. -/
noncomputable def bgArray (bgNum : JSVal) (carbs insulinDoseValue : ℝ)
    (trend : String) (tdd : ℝ) : ℕ → JSVal
  | 0 => bgNum
  | i + 1 =>
    let r := calculateICRandISF tdd
    let prev := bgArray bgNum carbs insulinDoseValue trend tdd i
    let deltaFromCarbs := r.ISF / r.ICR * carbProfile carbs i
    let deltaFromInsulin := r.ISF * insulinProfile insulinDoseValue i
    let drift := JSVal.mul (JSVal.mul (JSVal.num (-(0.001)))
      (JSVal.sub prev (JSVal.num 100))) (JSVal.num 1)
    let trendEffect : ℝ := if i + 1 ≤ 10 then initialSlope trend * 1 else 0
    JSVal.jmax (JSVal.num 50)
      (JSVal.add
        (JSVal.add
          (JSVal.sub (JSVal.add prev (JSVal.num deltaFromCarbs))
            (JSVal.num deltaFromInsulin))
          drift)
        (JSVal.num trendEffect))

/-- The same simulation loop restricted to a finite (real) starting BG;
`bgArray` at a `JSVal.num` input computes exactly this (see `bgArray_num`). -/
noncomputable def bgReal (bgNum : ℝ) (carbs insulinDoseValue : ℝ)
    (trend : String) (tdd : ℝ) : ℕ → ℝ
  | 0 => bgNum
  | i + 1 =>
    let r := calculateICRandISF tdd
    let prev := bgReal bgNum carbs insulinDoseValue trend tdd i
    Max.max 50
      (prev + r.ISF / r.ICR * carbProfile carbs i
        - r.ISF * insulinProfile insulinDoseValue i
        + -(0.001) * (prev - 100) * 1
        + (if i + 1 ≤ 10 then initialSlope trend * 1 else 0))

/-- Result record of `calculateBGPredictions` (the `BGPrediction` shape). -/
structure BGPrediction where
  current : JSVal
  oneHour : JSVal
  twoHours : JSVal
  threeHours : JSVal
  fullProfile : List JSVal
  ICR : ℝ
  ISF : ℝ

/-- `calculateBGPredictions(currentBGValue, carbs, insulinDoseValue, trend, tdd)`:
`if (isNaN(bgNum)) return null`, otherwise run the simulation loop over the
181-minute horizon and package the result.  `ICR`/`ISF` in the result are
rounded to one decimal (`Math.round(x * 10) / 10`). -/
noncomputable def calculateBGPredictions (currentBGValue : JSVal)
    (carbs insulinDoseValue : ℝ) (trend : String) (tdd : ℝ) :
    Option BGPrediction :=
  let bgNum := currentBGValue
  if bgNum.isNaN then none
  else
    let r := calculateICRandISF tdd
    some
      { current := bgNum
        oneHour := JSVal.jround (bgArray bgNum carbs insulinDoseValue trend tdd 60)
        twoHours := JSVal.jround (bgArray bgNum carbs insulinDoseValue trend tdd 120)
        threeHours := JSVal.jround (bgArray bgNum carbs insulinDoseValue trend tdd 180)
        fullProfile := (List.range 181).map (bgArray bgNum carbs insulinDoseValue trend tdd)
        ICR := ((round (r.ICR * 10) : ℤ) : ℝ) / 10
        ISF := ((round (r.ISF * 10) : ℤ) : ℝ) / 10 }

/-! ## CGM display sampling (`generateCGMData`) -/

/-- One element of the list built by `generateCGMData`. -/
structure CGMDataPoint where
  time : ℕ
  timeLabel : String
  bg : JSVal
  isHigh : Bool
  isLow : Bool
  isNormal : Bool
  isTarget : Bool
  isCriticalHigh : Bool
  isCriticalLow : Bool

/-- The ternary chain building `timeLabel` for a sample at `timeMinutes`:
`"Now"` at 0, `"__m"` below one hour, else `"__h __m"` with a trailing
`" 0m"` collapsed to `"h"`. -/
def timeLabelOf (timeMinutes : ℕ) : String :=
  if timeMinutes = 0 then "Now"
  else if timeMinutes < 60 then toString timeMinutes ++ "m"
  else (toString (timeMinutes / 60) ++ "h " ++ toString (timeMinutes % 60) ++ "m").replace " 0m" "h"

/-- `generateCGMData`: guard `isNaN`, run `calculateBGPredictions`, then
sample the full profile every 15 minutes (13 points) and classify each
sampled value against the clinical thresholds.  `bg` is the rounded value;
the band booleans are computed from the unrounded `predictedBG`. -/
noncomputable def generateCGMData (currentBGValue : JSVal)
    (carbs insulinDoseValue : ℝ) (trend : String) (tdd : ℝ) :
    List CGMDataPoint :=
  if currentBGValue.isNaN then []
  else
    match calculateBGPredictions currentBGValue carbs insulinDoseValue trend tdd with
    | none => []
    | some predictions =>
      (List.range 13).map fun i =>
        let timeMinutes := i * 15
        let bgIndex := Nat.min timeMinutes (predictions.fullProfile.length - 1)
        let predictedBG := predictions.fullProfile.getD bgIndex JSVal.nan
        { time := timeMinutes
          timeLabel := timeLabelOf timeMinutes
          bg := JSVal.jround predictedBG
          isHigh := JSVal.gtR predictedBG 180
          isLow := JSVal.ltR predictedBG 70
          isNormal := and (JSVal.geR predictedBG 70) (JSVal.leR predictedBG 180)
          isTarget := and (JSVal.geR predictedBG 70) (JSVal.leR predictedBG 180)
          isCriticalHigh := JSVal.gtR predictedBG 250
          isCriticalLow := JSVal.ltR predictedBG 55 }

/-- Modelled from the spec for comparison with the code (claim C4's reading):
the 1.0-unit safety reduction applies exactly when currentBG is below the
low threshold of 80 mg/dL expressed in the active unit, i.e. below
`80 / 18.0182` mmol/L when the unit is mmol/L. -/
noncomputable def claimTotalDoseC4
    (carbs carbRatio : ℝ) (bgUnit : BGUnit) (currentBGNum correctionFactor : ℝ) : ℝ :=
  let lowThreshold : ℝ :=
    match bgUnit with
    | BGUnit.mgdl => 80
    | BGUnit.mmol => 80 / 18.0182
  if currentBGNum < lowThreshold then
    Max.max 0 (baseInsulinDose carbs carbRatio
      + correctionDose bgUnit currentBGNum correctionFactor - 1)
  else
    baseInsulinDose carbs carbRatio + correctionDose bgUnit currentBGNum correctionFactor

/-- Spec-side carb profile from claim C2's words:
`carbProfile[t] = carbs * gammaKernel(t, 60)` (the claim's kernel formula,
0 for t ≤ 0 and `(t/τc²)·e^(−t/τc)` otherwise, is the same formula as the
source `gammaKernel`). -/
noncomputable def specCarbProfile (carbs : ℝ) (t : ℕ) : ℝ :=
  carbs * gammaKernel (t : ℝ) 60

/-- Spec-side insulin profile from claim C2's words:
`insulinProfile[t] = insulinDose * insulinKernel(t, 20, 160) / (160 - 20)`. -/
noncomputable def specInsulinProfile (insulinDose : ℝ) (t : ℕ) : ℝ :=
  insulinDose * insulinKernel (t : ℝ) 20 160 / (160 - 20)

/-- Spec-side trend effect from claim C2's words: +2 (rising), -2 (falling)
or 0 (stable) for steps i ≤ 10, and 0 for i > 10. -/
noncomputable def specTrendEffect (trend : String) (i : ℕ) : ℝ :=
  if i ≤ 10 then
    (if trend = "rising" then 2 else if trend = "falling" then -2 else 0)
  else 0

/-- Spec-side trajectory from claim C2's words: `trajectory[0] = currentBG`
and for i from 1 to the horizon
`trajectory[i] = max(50, trajectory[i-1] + (ISF/ICR)·carbProfile[i-1]
  - ISF·insulinProfile[i-1] - 0.001·(trajectory[i-1] - 100) + trendEffect)`,
with `ISF = 1500/tdd` and `ICR = 500/tdd` per the 500/1500 rules. -/
noncomputable def specTrajectory (currentBG carbs insulinDose : ℝ)
    (trend : String) (tdd : ℝ) : ℕ → ℝ
  | 0 => currentBG
  | i + 1 =>
    Max.max 50
      (specTrajectory currentBG carbs insulinDose trend tdd i
        + (1500 / tdd) / (500 / tdd) * specCarbProfile carbs i
        - (1500 / tdd) * specInsulinProfile insulinDose i
        - 0.001 * (specTrajectory currentBG carbs insulinDose trend tdd i - 100)
        + specTrendEffect trend (i + 1))

/-! ## Bridging lemmas -/

/-- On a finite starting BG the JS-value simulation loop computes the real
recurrence `bgReal`. -/
theorem bgArray_num (x carbs d : ℝ) (trend : String) (tdd : ℝ) :
    ∀ i, bgArray (JSVal.num x) carbs d trend tdd i
      = JSVal.num (bgReal x carbs d trend tdd i) := by
  intro i
  induction i with
  | zero => rfl
  | succ i ih =>
    simp only [bgArray, bgReal, ih, JSVal.add, JSVal.sub, JSVal.neg, JSVal.mul, JSVal.jmax]
    ring_nf

/-- The full profile entry at `i < 181` is the `i`-th simulated value. -/
theorem fullProfile_getElem (bgNum : JSVal) (carbs d : ℝ) (trend : String)
    (tdd : ℝ) (p : BGPrediction) (i : ℕ) (hi : i < 181)
    (hp : calculateBGPredictions bgNum carbs d trend tdd = some p) :
    p.fullProfile[i]? = some (bgArray bgNum carbs d trend tdd i) := by
  by_cases h : bgNum.isNaN
  · simp [calculateBGPredictions, h] at hp
  · simp only [calculateBGPredictions, h, Bool.false_eq_true, if_false, Option.some.injEq] at hp
    subst hp
    simp [List.getElem?_map, List.getElem?_range, hi]

/-- Shape of the prediction record at a finite input: the guard passes and
every field is the corresponding real computation. -/
theorem calc_num_eq (x carbs d : ℝ) (trend : String) (tdd : ℝ) :
    calculateBGPredictions (JSVal.num x) carbs d trend tdd = some
      { current := JSVal.num x
        oneHour := JSVal.num ((round (bgReal x carbs d trend tdd 60) : ℤ) : ℝ)
        twoHours := JSVal.num ((round (bgReal x carbs d trend tdd 120) : ℤ) : ℝ)
        threeHours := JSVal.num ((round (bgReal x carbs d trend tdd 180) : ℤ) : ℝ)
        fullProfile := (List.range 181).map fun i => JSVal.num (bgReal x carbs d trend tdd i)
        ICR := ((round (500 / tdd * 10) : ℤ) : ℝ) / 10
        ISF := ((round (1500 / tdd * 10) : ℤ) : ℝ) / 10 } := by
  have hfun : bgArray (JSVal.num x) carbs d trend tdd
      = fun i => JSVal.num (bgReal x carbs d trend tdd i) :=
    funext (bgArray_num x carbs d trend tdd)
  simp [calculateBGPredictions, JSVal.isNaN, JSVal.jround, calculateICRandISF, hfun]

/-! ## Claim C6: the 500/1500 rules -/

/-- C6: for every tdd > 0, `calculateICRandISF` returns `ICR = 500/tdd` and
`ISF = 1500/tdd`, hence `ISF = 3 * ICR`; at tdd = 40 this gives
`ICR = 12.5` and `ISF = 37.5`. -/
theorem c6_icr_isf_rules (tdd : ℝ) (_htdd : 0 < tdd) :
    (calculateICRandISF tdd).ICR = 500 / tdd
    ∧ (calculateICRandISF tdd).ISF = 1500 / tdd
    ∧ (calculateICRandISF tdd).ISF = 3 * (calculateICRandISF tdd).ICR
    ∧ (calculateICRandISF 40).ICR = 12.5
    ∧ (calculateICRandISF 40).ISF = 37.5 := by
  refine ⟨rfl, rfl, ?_, by norm_num [calculateICRandISF], by norm_num [calculateICRandISF]⟩
  show (1500 : ℝ) / tdd = 3 * (500 / tdd)
  ring

/-- C6 witness at tdd = 40. -/
theorem c6_icr_isf_rules_witness :
    (0 : ℝ) < 40
    ∧ ((calculateICRandISF 40).ICR = 500 / 40
      ∧ (calculateICRandISF 40).ISF = 1500 / 40
      ∧ (calculateICRandISF 40).ISF = 3 * (calculateICRandISF 40).ICR
      ∧ (calculateICRandISF 40).ICR = 12.5
      ∧ (calculateICRandISF 40).ISF = 37.5) :=
  ⟨by norm_num, c6_icr_isf_rules 40 (by norm_num)⟩

/-! ## Claim C5: correction dose formula and scenario A -/

/-- C5: the correction dose converts mg/dL input to mmol/L by dividing by
18.0182, then is `(bg - 7)/correctionFactor` when the mmol/L value exceeds 7
and 0 otherwise; with carbs = 50, carbRatio = 10, currentBG = 150 mg/dL and
correctionFactor = 2 the base dose is 5.0, the correction dose is within
0.005 of 0.66 and the total dose is within 0.005 of 5.66. -/
theorem c5_correction_dose_formula (bg cf : ℝ) (_hcf : 0 < cf) :
    correctionDose BGUnit.mgdl bg cf
      = (if 7 < bg / 18.0182 then (bg / 18.0182 - 7) / cf else 0)
    ∧ correctionDose BGUnit.mmol bg cf = (if 7 < bg then (bg - 7) / cf else 0)
    ∧ baseInsulinDose 50 10 = 5
    ∧ |correctionDose BGUnit.mgdl 150 2 - 0.66| ≤ 1 / 200
    ∧ |totalInsulinDose 50 10 BGUnit.mgdl 150 2 - 5.66| ≤ 1 / 200 := by
  have h7 : (7 : ℝ) < 150 / 18.0182 := by norm_num
  have hcorr : correctionDose BGUnit.mgdl 150 2 = (150 / 18.0182 - 7) / 2 := by
    simp only [correctionDose, bgInMmolL, mgdLToMmolL]
    rw [if_pos h7]
  have hbase : baseInsulinDose 50 10 = 5 := by
    simp only [baseInsulinDose, ratioOrOne]
    rw [if_neg (show ¬((10 : ℝ) = 0) by norm_num)]
    norm_num
  have htot : totalInsulinDose 50 10 BGUnit.mgdl 150 2 = 5 + (150 / 18.0182 - 7) / 2 := by
    simp only [totalInsulinDose]
    rw [if_neg (show ¬((150 : ℝ) < 80) by norm_num), hbase, hcorr]
  refine ⟨rfl, rfl, hbase, ?_, ?_⟩
  · rw [hcorr, abs_le]
    constructor <;> norm_num
  · rw [htot, abs_le]
    constructor <;> norm_num

/-- C5 witness at bg = 150 mg/dL, correctionFactor = 2. -/
theorem c5_correction_dose_formula_witness :
    (0 : ℝ) < 2
    ∧ (correctionDose BGUnit.mgdl 150 2
        = (if 7 < (150 : ℝ) / 18.0182 then ((150 : ℝ) / 18.0182 - 7) / 2 else 0)
      ∧ correctionDose BGUnit.mmol 150 2 = (if 7 < (150 : ℝ) then ((150 : ℝ) - 7) / 2 else 0)
      ∧ baseInsulinDose 50 10 = 5
      ∧ |correctionDose BGUnit.mgdl 150 2 - 0.66| ≤ 1 / 200
      ∧ |totalInsulinDose 50 10 BGUnit.mgdl 150 2 - 5.66| ≤ 1 / 200) :=
  ⟨by norm_num, c5_correction_dose_formula 150 2 (by norm_num)⟩

/-! ## Claim C4: total dose assembly and the low-BG safety reduction -/

/-- C4 counterexample: with bgUnit = mmol/L, currentBG = 10 mmol/L
(≈ 180 mg/dL, far above any low threshold), carbs = 50, carbRatio = 10,
correctionFactor = 2, the code still applies the safety reduction because
it compares the raw value 10 against 80: it returns 5.5, while the claim
(threshold converted to ≈ 4.44 mmol/L) predicts 6.5. -/
theorem c4_low_threshold_raw_unit_cex :
    totalInsulinDose 50 10 BGUnit.mmol 10 2 = 5.5
    ∧ claimTotalDoseC4 50 10 BGUnit.mmol 10 2 = 6.5
    ∧ (5.5 : ℝ) ≠ 6.5 := by
  have hbase : baseInsulinDose 50 10 = 5 := by
    simp only [baseInsulinDose, ratioOrOne]
    rw [if_neg (show ¬((10 : ℝ) = 0) by norm_num)]
    norm_num
  have hcorr : correctionDose BGUnit.mmol 10 2 = 3 / 2 := by
    simp only [correctionDose, bgInMmolL]
    rw [if_pos (show (7 : ℝ) < 10 by norm_num)]
    norm_num
  refine ⟨?_, ?_, by norm_num⟩
  · simp only [totalInsulinDose]
    rw [if_pos (show (10 : ℝ) < 80 by norm_num), hbase, hcorr]
    rw [max_eq_right (by norm_num : (0 : ℝ) ≤ 5 + 3 / 2 - 1)]
    norm_num
  · simp only [claimTotalDoseC4]
    rw [if_neg (show ¬((10 : ℝ) < 80 / 18.0182) by norm_num), hbase, hcorr]
    norm_num

/-- C4 amended: the total dose is baseDose + correctionDose; the flat
1.0-unit reduction (with a floor at 0) is applied exactly when the raw
currentBG value is below 80 in whatever unit is active, with no unit
conversion of the threshold; under the data-model invariants
(carbs ≥ 0, carbRatio > 0, correctionFactor > 0) the total dose is
always ≥ 0. -/
theorem c4_total_dose_formula
    (carbs carbRatio correctionFactor bg : ℝ) (u : BGUnit)
    (hc : 0 ≤ carbs) (hr : 0 < carbRatio) (hcf : 0 < correctionFactor) :
    (bg < 80 → totalInsulinDose carbs carbRatio u bg correctionFactor
      = Max.max 0 (baseInsulinDose carbs carbRatio + correctionDose u bg correctionFactor - 1))
    ∧ (80 ≤ bg → totalInsulinDose carbs carbRatio u bg correctionFactor
      = baseInsulinDose carbs carbRatio + correctionDose u bg correctionFactor)
    ∧ 0 ≤ totalInsulinDose carbs carbRatio u bg correctionFactor := by
  have hbase : 0 ≤ baseInsulinDose carbs carbRatio := by
    simp only [baseInsulinDose, ratioOrOne]
    rw [if_neg hr.ne']
    exact div_nonneg hc hr.le
  have hcorr : 0 ≤ correctionDose u bg correctionFactor := by
    simp only [correctionDose]
    by_cases h : 7 < bgInMmolL u bg
    · rw [if_pos h]
      exact div_nonneg (by linarith) hcf.le
    · rw [if_neg h]
  refine ⟨fun h => ?_, fun h => ?_, ?_⟩
  · simp only [totalInsulinDose]
    rw [if_pos h]
  · simp only [totalInsulinDose]
    rw [if_neg (not_lt.mpr h)]
  · simp only [totalInsulinDose]
    by_cases h : bg < 80
    · rw [if_pos h]
      exact le_max_left 0 _
    · rw [if_neg h]
      exact add_nonneg hbase hcorr

/-- C4 witness at carbs = 50, carbRatio = 10, correctionFactor = 2,
bg = 150 mg/dL. -/
theorem c4_total_dose_formula_witness :
    (0 : ℝ) ≤ 50 ∧ (0 : ℝ) < 10 ∧ (0 : ℝ) < 2
    ∧ (((150 : ℝ) < 80 → totalInsulinDose 50 10 BGUnit.mgdl 150 2
        = Max.max 0 (baseInsulinDose 50 10 + correctionDose BGUnit.mgdl 150 2 - 1))
      ∧ ((80 : ℝ) ≤ 150 → totalInsulinDose 50 10 BGUnit.mgdl 150 2
        = baseInsulinDose 50 10 + correctionDose BGUnit.mgdl 150 2)
      ∧ 0 ≤ totalInsulinDose 50 10 BGUnit.mgdl 150 2) :=
  ⟨by norm_num, by norm_num, by norm_num,
    c4_total_dose_formula 50 10 2 150 BGUnit.mgdl (by norm_num) (by norm_num) (by norm_num)⟩

/-! ## Claim C9: no InvalidParameter guard exists in the core -/

/-- C9 counterexample: the code performs the calculations rather than
rejecting non-positive parameters.  A carbRatio of 0 is silently replaced
by 1 (the `|| 1` fallback), so the base dose for 50 g is 50 u; a negative
correctionFactor is used in the division as-is; and
`calculateBGPredictions` returns a non-null result even with tdd = 0. -/
theorem c9_no_guard_cex :
    baseInsulinDose 50 0 = 50
    ∧ correctionDose BGUnit.mmol 10 (-2) = -(3 / 2)
    ∧ (calculateBGPredictions (JSVal.num 150) 50 5 "stable" 0).isSome = true := by
  refine ⟨?_, ?_, ?_⟩
  · simp only [baseInsulinDose, ratioOrOne]
    simp
  · simp only [correctionDose, bgInMmolL]
    rw [if_pos (show (7 : ℝ) < 10 by norm_num)]
    norm_num
  · rw [calc_num_eq]
    rfl

/-- C9 amended: neither the dosing calculation nor `calculateBGPredictions`
rejects non-positive parameters or signals any InvalidParameter condition:
a zero carbRatio is coerced to 1 so the base dose is just the carb count,
and `calculateBGPredictions` returns a (non-null) trajectory for every
tdd ≤ 0. -/
theorem c9_no_invalid_parameter_guard
    (carbs x c d : ℝ) (t : String) (tdd : ℝ) (_htdd : tdd ≤ 0) :
    baseInsulinDose carbs 0 = carbs
    ∧ (calculateBGPredictions (JSVal.num x) c d t tdd).isSome = true
    ∧ (generateCGMData (JSVal.num x) c d t tdd).length = 13 := by
  refine ⟨?_, ?_, ?_⟩
  · simp only [baseInsulinDose, ratioOrOne]
    simp
  · rw [calc_num_eq]
    rfl
  · simp only [generateCGMData, JSVal.isNaN]
    rw [calc_num_eq]
    simp

/-- C9 witness at carbs = 50, tdd = -40, currentBG = 150. -/
theorem c9_no_invalid_parameter_guard_witness :
    (-40 : ℝ) ≤ 0
    ∧ (baseInsulinDose 50 0 = 50
      ∧ (calculateBGPredictions (JSVal.num 150) 0 0 "stable" (-40)).isSome = true
      ∧ (generateCGMData (JSVal.num 150) 0 0 "stable" (-40)).length = 13) :=
  ⟨by norm_num, c9_no_invalid_parameter_guard 50 150 0 0 "stable" (-40) (by norm_num)⟩

/-! ## Claims C1 and C2: the simulated trajectory -/

/-- C1 counterexample: at currentBG = 40 (a finite value below 50) the
element of the full profile at index 0 is 40, violating the claimed ≥ 50
floor for every element including index 0: the code never clamps
`bgArray[0]`. -/
theorem c1_profile_start_below_floor_cex :
    ((calculateBGPredictions (JSVal.num 40) 0 0 "stable" 40).map
      fun p => p.fullProfile[0]?) = some (some (JSVal.num 40))
    ∧ ¬ (50 ≤ (40 : ℝ)) := by
  constructor
  · rw [calc_num_eq]
    simp [List.getElem?_map]
    rfl
  · norm_num

/-- C1 amended: every element of the returned trajectory at index 1 through
180 is ≥ 50 (the `Math.max(50, ...)` clamp applies to every simulated step);
the element at index 0 is the unclamped input BG. -/
theorem c1_floor_from_minute_one (x c d : ℝ) (t : String) (tdd : ℝ)
    (i : ℕ) (h1 : 1 ≤ i) (h2 : i ≤ 180) :
    ((calculateBGPredictions (JSVal.num x) c d t tdd).map
      fun p => p.fullProfile[i]?) = some (some (JSVal.num (bgReal x c d t tdd i)))
    ∧ 50 ≤ bgReal x c d t tdd i := by
  constructor
  · rw [calc_num_eq]
    simp [List.getElem?_map, List.getElem?_range, show i < 181 from by omega]
  · obtain ⟨j, rfl⟩ : ∃ j, i = j + 1 := ⟨i - 1, by omega⟩
    rw [bgReal]
    exact le_max_left 50 _

/-- C1 witness at index 1 with currentBG = 100. -/
theorem c1_floor_from_minute_one_witness :
    1 ≤ 1 ∧ 1 ≤ 180
    ∧ (((calculateBGPredictions (JSVal.num 100) 0 0 "stable" 40).map
        fun p => p.fullProfile[1]?) = some (some (JSVal.num (bgReal 100 0 0 "stable" 40 1)))
      ∧ 50 ≤ bgReal 100 0 0 "stable" 40 1) :=
  ⟨by decide, by decide,
    c1_floor_from_minute_one 100 0 0 "stable" 40 1 (by decide) (by decide)⟩

/-- The simulation loop of the source computes exactly the spec recurrence. -/
theorem bgReal_eq_specTrajectory (x c d : ℝ) (t : String) (tdd : ℝ) :
    ∀ i, bgReal x c d t tdd i = specTrajectory x c d t tdd i := by
  intro i
  induction i with
  | zero => rfl
  | succ i ih =>
    rw [bgReal, specTrajectory, ih]
    congr 1
    simp only [calculateICRandISF, carbProfile, insulinProfile, normalizeInsulinKernel,
      specCarbProfile, specInsulinProfile, specTrendEffect, initialSlope, mul_one]
    by_cases h : i + 1 ≤ 10 <;> ring

/-- C2: for every finite currentBG, carbs ≥ 0, insulinDose ≥ 0, trend and
tdd > 0, every entry i ≤ 180 of the returned fullProfile satisfies the
spec recurrence (trajectory[0] = currentBG and each later entry is the
clamped carb/insulin/drift/trend update of its predecessor). -/
theorem c2_trajectory_matches_spec (x c d : ℝ) (t : String) (tdd : ℝ)
    (_htdd : 0 < tdd) (_hc : 0 ≤ c) (_hd : 0 ≤ d) (i : ℕ) (hi : i ≤ 180) :
    ((calculateBGPredictions (JSVal.num x) c d t tdd).map
      fun p => p.fullProfile[i]?) = some (some (JSVal.num (specTrajectory x c d t tdd i))) := by
  rw [calc_num_eq]
  simp [List.getElem?_map, List.getElem?_range, show i < 181 from by omega,
    bgReal_eq_specTrajectory]

/-- C2 witness at currentBG = 120, carbs = 30, insulinDose = 2, rising
trend, tdd = 40, index 5. -/
theorem c2_trajectory_matches_spec_witness :
    (0 : ℝ) < 40 ∧ (0 : ℝ) ≤ 30 ∧ (0 : ℝ) ≤ 2 ∧ 5 ≤ 180
    ∧ ((calculateBGPredictions (JSVal.num 120) 30 2 "rising" 40).map
      fun p => p.fullProfile[5]?) = some (some (JSVal.num (specTrajectory 120 30 2 "rising" 40 5))) :=
  ⟨by norm_num, by norm_num, by norm_num, by decide,
    c2_trajectory_matches_spec 120 30 2 "rising" 40 (by norm_num) (by norm_num)
      (by norm_num) 5 (by decide)⟩

/-! ## Claim C3: the one/two/three hour checkpoint fields -/

/-- The default `switch` branch: a stable trend contributes slope 0. -/
theorem initialSlope_stable : initialSlope "stable" = 0 := by
  rw [initialSlope, if_neg (by decide : ¬("stable" : String) = "rising"),
    if_neg (by decide : ¬("stable" : String) = "falling")]

/-- With no carbs and no insulin on a stable trend, each step is only the
baseline drift toward 100, clamped at 50. -/
theorem bgReal_zero_input (x tdd : ℝ) : ∀ i, bgReal x 0 0 "stable" tdd (i + 1)
    = Max.max 50 (bgReal x 0 0 "stable" tdd i
      - 0.001 * (bgReal x 0 0 "stable" tdd i - 100)) := by
  intro i
  rw [bgReal]
  simp only [calculateICRandISF, carbProfile, insulinProfile, normalizeInsulinKernel,
    zero_mul, mul_zero, mul_one, add_zero, sub_zero, initialSlope_stable, ite_self]
  congr 1
  ring

/-- Closed form of the drift-only trajectory started at 150:
`100 + 50 * 0.999 ^ i`. -/
theorem bgReal_closed_150 : ∀ i, bgReal 150 0 0 "stable" 40 i
    = 100 + 50 * ((999 : ℝ) / 1000) ^ i := by
  intro i
  induction i with
  | zero => norm_num [bgReal]
  | succ i ih =>
    rw [bgReal_zero_input, ih, max_eq_right]
    · ring
    · nlinarith [pow_nonneg (by norm_num : (0 : ℝ) ≤ 999 / 1000) i]

/-- C3 counterexample: at currentBG = 150, carbs = 0, insulinDose = 0,
stable trend, tdd = 40, the profile value at index 60 is
`100 + 50 * 0.999^60` (strictly between 147 and 148, hence not an
integer), while the `oneHour` field is the rounded value 147: the fields
are `Math.round`ed, so `oneHour ≠ fullProfile[60]`. -/
theorem c3_oneHour_rounded_cex :
    ((calculateBGPredictions (JSVal.num 150) 0 0 "stable" 40).map
      fun p => p.fullProfile[60]?)
      = some (some (JSVal.num (100 + 50 * ((999 : ℝ) / 1000) ^ 60)))
    ∧ ((calculateBGPredictions (JSVal.num 150) 0 0 "stable" 40).map
      fun p => p.oneHour) = some (JSVal.num 147)
    ∧ JSVal.num (100 + 50 * ((999 : ℝ) / 1000) ^ 60) ≠ JSVal.num 147 := by
  refine ⟨?_, ?_, ?_⟩
  · rw [calc_num_eq]
    simp [List.getElem?_map, List.getElem?_range, bgReal_closed_150]
  · rw [calc_num_eq]
    simp only [Option.map_some']
    rw [bgReal_closed_150]
    norm_num [round_eq, Int.floor_eq_iff]
  · simp only [ne_eq, JSVal.num.injEq]
    norm_num

/-- C3 amended: the `oneHour`, `twoHours` and `threeHours` fields equal
`Math.round` of `fullProfile[60]`, `fullProfile[120]` and `fullProfile[180]`
respectively (the rounded, not the raw, trajectory values). -/
theorem c3_checkpoints_are_rounded_profile (x c d : ℝ) (t : String) (tdd : ℝ) :
    ((calculateBGPredictions (JSVal.num x) c d t tdd).map
      fun p => (p.oneHour, p.twoHours, p.threeHours))
    = ((calculateBGPredictions (JSVal.num x) c d t tdd).map
      fun p => (JSVal.jround (p.fullProfile.getD 60 JSVal.nan),
        JSVal.jround (p.fullProfile.getD 120 JSVal.nan),
        JSVal.jround (p.fullProfile.getD 180 JSVal.nan))) := by
  rw [calc_num_eq]
  simp [List.getD_eq_getElem?_getD, List.getElem?_map, List.getElem?_range, JSVal.jround]

/-! ## Claim C7: the NaN guard and non-finite inputs -/

/-- C7 counterexample: for currentBG = +Infinity the JS `isNaN` guard does
not fire (`isNaN(Infinity)` is false), so `calculateBGPredictions` returns
a non-null result and `generateCGMData` returns a non-empty list, contrary
to the claim that every non-finite input yields null/empty. -/
theorem c7_infinity_not_null_cex :
    calculateBGPredictions JSVal.inf 0 0 "stable" 40 ≠ none
    ∧ generateCGMData JSVal.inf 0 0 "stable" 40 ≠ [] := by
  constructor
  · simp [calculateBGPredictions, JSVal.isNaN]
  · simp [generateCGMData, calculateBGPredictions, JSVal.isNaN]

/-- C7 amended: the simulation returns null (and the CGM list is empty)
exactly for a NaN currentBG, and never throws; for every finite numeric
currentBG it returns a complete 181-point trajectory and a 13-sample list;
for ±Infinity the `isNaN` guard does not fire, so a (non-null) result and
a full 13-sample list are returned as well. -/
theorem c7_nan_guard (c d : ℝ) (t : String) (tdd x : ℝ) :
    calculateBGPredictions JSVal.nan c d t tdd = none
    ∧ generateCGMData JSVal.nan c d t tdd = []
    ∧ ((calculateBGPredictions (JSVal.num x) c d t tdd).map
        fun p => p.fullProfile.length) = some 181
    ∧ (generateCGMData (JSVal.num x) c d t tdd).length = 13
    ∧ (calculateBGPredictions JSVal.inf c d t tdd).isSome = true
    ∧ (generateCGMData JSVal.inf c d t tdd).length = 13
    ∧ (calculateBGPredictions JSVal.ninf c d t tdd).isSome = true
    ∧ (generateCGMData JSVal.ninf c d t tdd).length = 13 := by
  refine ⟨rfl, rfl, ?_, ?_, ?_, ?_, ?_, ?_⟩
  · rw [calc_num_eq]
    simp
  · simp only [generateCGMData, JSVal.isNaN]
    rw [calc_num_eq]
    simp
  · simp [calculateBGPredictions, JSVal.isNaN]
  · simp [generateCGMData, calculateBGPredictions, JSVal.isNaN]
  · simp [calculateBGPredictions, JSVal.isNaN]
  · simp [generateCGMData, calculateBGPredictions, JSVal.isNaN]

/-! ## Claims C8 and C10: CGM sample classification -/

/-- Shape of the i-th CGM sample (i < 13) at a finite input: `bg` is the
rounded trajectory value at minute `min(i*15, 180)` while every band flag
is computed from the unrounded value. -/
theorem cgm_num_getElem (x c d : ℝ) (t : String) (tdd : ℝ) (i : ℕ)
    (hi : i < 13) :
    (generateCGMData (JSVal.num x) c d t tdd)[i]? = some
      { time := i * 15
        timeLabel := timeLabelOf (i * 15)
        bg := JSVal.num ((round (bgReal x c d t tdd (Nat.min (i * 15) 180)) : ℤ) : ℝ)
        isHigh := decide (180 < bgReal x c d t tdd (Nat.min (i * 15) 180))
        isLow := decide (bgReal x c d t tdd (Nat.min (i * 15) 180) < 70)
        isNormal := and (decide (70 ≤ bgReal x c d t tdd (Nat.min (i * 15) 180)))
          (decide (bgReal x c d t tdd (Nat.min (i * 15) 180) ≤ 180))
        isTarget := and (decide (70 ≤ bgReal x c d t tdd (Nat.min (i * 15) 180)))
          (decide (bgReal x c d t tdd (Nat.min (i * 15) 180) ≤ 180))
        isCriticalHigh := decide (250 < bgReal x c d t tdd (Nat.min (i * 15) 180))
        isCriticalLow := decide (bgReal x c d t tdd (Nat.min (i * 15) 180) < 55) } := by
  have hmin : Nat.min (i * 15) 180 < 181 :=
    lt_of_le_of_lt (Nat.min_le_right _ _) (by norm_num)
  simp only [generateCGMData, JSVal.isNaN]
  rw [calc_num_eq]
  simp [List.getElem?_map, List.getElem?_range, hi, hmin, List.length_map,
    List.length_range, List.getD_eq_getElem?_getD,
    JSVal.jround, JSVal.gtR, JSVal.ltR, JSVal.geR, JSVal.leR]

/-- C8: in every CGM sample the classification of the underlying
(unrounded) trajectory value has an inclusive upper target bound: a value
of exactly 180 is target and not high, a value of 181 is high and not
target, and any value above 250 is tagged both high and critical-high. -/
theorem c8_band_boundaries (x c d : ℝ) (t : String) (tdd : ℝ) (i : ℕ)
    (hi : i < 13) :
    (bgReal x c d t tdd (Nat.min (i * 15) 180) = 180 →
      ((generateCGMData (JSVal.num x) c d t tdd)[i]?).map
        (fun pt => (pt.isTarget, pt.isHigh)) = some (true, false))
    ∧ (bgReal x c d t tdd (Nat.min (i * 15) 180) = 181 →
      ((generateCGMData (JSVal.num x) c d t tdd)[i]?).map
        (fun pt => (pt.isHigh, pt.isTarget)) = some (true, false))
    ∧ (250 < bgReal x c d t tdd (Nat.min (i * 15) 180) →
      ((generateCGMData (JSVal.num x) c d t tdd)[i]?).map
        (fun pt => (pt.isHigh, pt.isCriticalHigh)) = some (true, true)) := by
  rw [cgm_num_getElem x c d t tdd i hi]
  refine ⟨fun h => ?_, fun h => ?_, fun h => ?_⟩
  · simp only [Option.map_some', h, Option.some.injEq, Prod.mk.injEq,
      Bool.and_eq_true, decide_eq_true_eq, decide_eq_false_iff_not]
    norm_num
  · simp only [Option.map_some', h, Option.some.injEq, Prod.mk.injEq,
      Bool.and_eq_true, decide_eq_true_eq, decide_eq_false_iff_not]
    norm_num
  · simp only [Option.map_some', Option.some.injEq, Prod.mk.injEq,
      decide_eq_true_eq]
    constructor <;> linarith

/-- C8 witness at i = 0, currentBG = 100, carbs = 0, insulinDose = 0,
stable trend, tdd = 40. -/
theorem c8_band_boundaries_witness :
    0 < 13
    ∧ ((bgReal 100 0 0 "stable" 40 (Nat.min (0 * 15) 180) = 180 →
        ((generateCGMData (JSVal.num 100) 0 0 "stable" 40)[0]?).map
          (fun pt => (pt.isTarget, pt.isHigh)) = some (true, false))
      ∧ (bgReal 100 0 0 "stable" 40 (Nat.min (0 * 15) 180) = 181 →
        ((generateCGMData (JSVal.num 100) 0 0 "stable" 40)[0]?).map
          (fun pt => (pt.isHigh, pt.isTarget)) = some (true, false))
      ∧ (250 < bgReal 100 0 0 "stable" 40 (Nat.min (0 * 15) 180) →
        ((generateCGMData (JSVal.num 100) 0 0 "stable" 40)[0]?).map
          (fun pt => (pt.isHigh, pt.isCriticalHigh)) = some (true, true))) :=
  ⟨by decide, c8_band_boundaries 100 0 0 "stable" 40 0 (by decide)⟩

/-- C10: every CGM sample carries `bg = Math.round(value)` while all six
band flags are computed from the unrounded trajectory value; in particular
at currentBG = 180.4 the first sample reports bg = 180 together with
isHigh = true. -/
theorem c10_bg_rounded_flags_raw (x c d : ℝ) (t : String) (tdd : ℝ) (i : ℕ)
    (hi : i < 13) :
    ((generateCGMData (JSVal.num x) c d t tdd)[i]?).map
        (fun pt => (pt.bg, pt.isHigh, pt.isLow, pt.isNormal, pt.isTarget,
          pt.isCriticalHigh, pt.isCriticalLow))
      = some (JSVal.num ((round (bgReal x c d t tdd (Nat.min (i * 15) 180)) : ℤ) : ℝ),
          decide (180 < bgReal x c d t tdd (Nat.min (i * 15) 180)),
          decide (bgReal x c d t tdd (Nat.min (i * 15) 180) < 70),
          and (decide (70 ≤ bgReal x c d t tdd (Nat.min (i * 15) 180)))
            (decide (bgReal x c d t tdd (Nat.min (i * 15) 180) ≤ 180)),
          and (decide (70 ≤ bgReal x c d t tdd (Nat.min (i * 15) 180)))
            (decide (bgReal x c d t tdd (Nat.min (i * 15) 180) ≤ 180)),
          decide (250 < bgReal x c d t tdd (Nat.min (i * 15) 180)),
          decide (bgReal x c d t tdd (Nat.min (i * 15) 180) < 55))
    ∧ ((generateCGMData (JSVal.num (902 / 5)) 0 0 "stable" 40)[0]?).map
        (fun pt => (pt.bg, pt.isHigh)) = some (JSVal.num 180, true) := by
  constructor
  · rw [cgm_num_getElem x c d t tdd i hi]
    rfl
  · rw [cgm_num_getElem (902 / 5) 0 0 "stable" 40 0 (by norm_num)]
    have h0 : bgReal (902 / 5) 0 0 "stable" 40 (Nat.min (0 * 15) 180) = 902 / 5 := by
      norm_num [bgReal]
    have hr : round ((902 : ℝ) / 5) = 180 := by
      norm_num [round_eq, Int.floor_eq_iff]
    simp only [Option.map_some', h0, hr, Option.some.injEq, Prod.mk.injEq,
      JSVal.num.injEq, decide_eq_true_eq]
    norm_num

/-- C10 witness at i = 0, currentBG = 100, carbs = 0, insulinDose = 0,
stable trend, tdd = 40. -/
theorem c10_bg_rounded_flags_raw_witness :
    0 < 13
    ∧ (((generateCGMData (JSVal.num 100) 0 0 "stable" 40)[0]?).map
        (fun pt => (pt.bg, pt.isHigh, pt.isLow, pt.isNormal, pt.isTarget,
          pt.isCriticalHigh, pt.isCriticalLow))
      = some (JSVal.num ((round (bgReal 100 0 0 "stable" 40 (Nat.min (0 * 15) 180)) : ℤ) : ℝ),
          decide (180 < bgReal 100 0 0 "stable" 40 (Nat.min (0 * 15) 180)),
          decide (bgReal 100 0 0 "stable" 40 (Nat.min (0 * 15) 180) < 70),
          and (decide (70 ≤ bgReal 100 0 0 "stable" 40 (Nat.min (0 * 15) 180)))
            (decide (bgReal 100 0 0 "stable" 40 (Nat.min (0 * 15) 180) ≤ 180)),
          and (decide (70 ≤ bgReal 100 0 0 "stable" 40 (Nat.min (0 * 15) 180)))
            (decide (bgReal 100 0 0 "stable" 40 (Nat.min (0 * 15) 180) ≤ 180)),
          decide (250 < bgReal 100 0 0 "stable" 40 (Nat.min (0 * 15) 180)),
          decide (bgReal 100 0 0 "stable" 40 (Nat.min (0 * 15) 180) < 55))
    ∧ ((generateCGMData (JSVal.num (902 / 5)) 0 0 "stable" 40)[0]?).map
        (fun pt => (pt.bg, pt.isHigh)) = some (JSVal.num 180, true)) :=
  ⟨by decide, c10_bg_rounded_flags_raw 100 0 0 "stable" 40 0 (by decide)⟩
